import Mathlib

/-!
Shallow embedding of the code-block extraction pipeline
(src/lib/extractors/extract_blocks.py).

The pipeline reads a batch of raw pattern-match records plus a repository
descriptor, extracts typed code blocks, groups exact duplicates by content
hash, generates one consolidation suggestion per group, and computes
aggregate metrics.

Modelling notes:
- Python ints are modelled as Int (line numbers) or Nat (counts, lengths);
  Python floats appearing only as exact decimal literals (similarity and
  confidence scores) are modelled as Rat.
- A raw JSON match record is modelled as a structure of Option fields: a
  missing key is none.  Accessing a missing required key raises KeyError in
  the source, which the per-record try/except turns into a skip; here the
  per-record extraction returns none in exactly those cases.
- The cryptographic hash (hashlib.sha256(...).hexdigest()) and the
  content hash of the external model class are abstracted as explicit
  String → String parameters: every theorem holds for an arbitrary such
  function, and witnesses instantiate them with concrete functions.
-/

namespace ExtractBlocks

/-- A raw pattern-match record from the input JSON.  Each field is an
Option: none models a key missing from the JSON object. -/
structure Match where
  rule_id : Option String
  file_path : Option String
  line_start : Option Int
  line_end : Option Int
  matched_text : Option String
deriving Repr, DecidableEq, Inhabited

/-- The repository descriptor (`repository_info`); only its `path` is read. -/
structure RepositoryInfo where
  path : String
deriving Repr, DecidableEq, Inhabited

/-- Source span of a block (`SourceLocation` in the model layer). -/
structure SourceLocation where
  file_path : String
  line_start : Int
  line_end : Int
deriving Repr, DecidableEq, Inhabited

/-- A typed code block (`CodeBlock`), as constructed by
`extract_code_blocks`. -/
structure CodeBlock where
  block_id : String
  pattern_id : String
  location : SourceLocation
  relative_path : String
  source_code : String
  language : String
  category : String
  repository_path : String
  line_count : Int
deriving Repr, DecidableEq, Inhabited

/-- The fixed rule-id → semantic-category table (`category_map` in
`extract_code_blocks`). -/
def category_map : List (String × String) :=
  [("object-manipulation", "utility"),
   ("array-map-filter", "utility"),
   ("string-manipulation", "utility"),
   ("type-checking", "utility"),
   ("validation", "validator"),
   ("express-route-handlers", "api_handler"),
   ("auth-checks", "auth_check"),
   ("error-responses", "error_handler"),
   ("request-validation", "validator"),
   ("prisma-operations", "database_operation"),
   ("query-builders", "database_operation"),
   ("connection-handling", "database_operation"),
   ("await-patterns", "async_pattern"),
   ("promise-chains", "async_pattern"),
   ("env-variables", "config_access"),
   ("config-objects", "config_access"),
   ("console-statements", "logger"),
   ("logger-patterns", "logger")]

/-- The block identifier:
`f"cb_{sha256(f"\x7bfile_path\x7d:\x7bline_start\x7d").hexdigest()[:12]}"`.
`sha256hex` abstracts `hashlib.sha256(...).hexdigest()`. -/
def block_id_of (sha256hex : String → String) (file_path : String)
    (line_start : Int) : String :=
  "cb_" ++ (sha256hex (file_path ++ ":" ++ toString line_start)).take 12

/-- One iteration of the extraction loop body: the `try` block of
`extract_code_blocks`.  Accessing `match['file_path']`, `match['line_start']`
or `match['rule_id']` on a record missing that key raises, is caught, and the
record is skipped; this is modelled by returning none exactly when one of the
three required fields is absent. -/
def extract_one (sha256hex : String → String)
    (repository_info : RepositoryInfo) (m : Match) : Option CodeBlock :=
  match m.file_path, m.line_start, m.rule_id with
  | some fp, some ls, some rid =>
    some
      { block_id := block_id_of sha256hex fp ls
        pattern_id := rid
        location :=
          { file_path := fp
            line_start := ls
            line_end := m.line_end.getD ls }
        relative_path := fp
        source_code := m.matched_text.getD ""
        language := "javascript"
        category := (category_map.lookup rid).getD "utility"
        repository_path := repository_info.path
        line_count := m.line_end.getD ls - ls + 1 }
  | _, _, _ => none

/-- The extraction loop of `extract_code_blocks`, carrying the enumeration
index `i`.  Returns the extracted blocks in input order together with the
diagnostics written to stderr for skipped records: each diagnostic carries
the record index and `match.get('file_path', 'unknown')`. -/
def extract_loop (sha256hex : String → String)
    (repository_info : RepositoryInfo) :
    Nat → List Match → List CodeBlock × List (Nat × String)
  | _, [] => ([], [])
  | i, m :: rest =>
    let r := extract_loop sha256hex repository_info (i + 1) rest
    match extract_one sha256hex repository_info m with
    | some b => (b :: r.1, r.2)
    | none => (r.1, (i, m.file_path.getD "unknown") :: r.2)

/-- `extract_code_blocks(pattern_matches, repository_info)`: the list of
blocks, plus the skip diagnostics. -/
def extract_code_blocks (sha256hex : String → String)
    (pattern_matches : List Match) (repository_info : RepositoryInfo) :
    List CodeBlock × List (Nat × String) :=
  extract_loop sha256hex repository_info 0 pattern_matches

/-- Modelled from the spec: `CodeBlock.content_hash` is defined in
`lib/models/code_block.py`, which is not among the sources; per the spec it
is "a deterministic hash of normalized `source_code` used as the sole
exact-duplicate key".  The hash-of-normalization is abstracted as the
parameter `ch`, an arbitrary function of the block's `source_code`. -/
def content_hash_of (ch : String → String) (b : CodeBlock) : String :=
  ch b.source_code

/-- `hash_groups` dict construction in `group_duplicates`: appending a block
to the bucket of its content hash, preserving dict insertion order. -/
def add_to_bucket (h : String) (b : CodeBlock) :
    List (String × List CodeBlock) → List (String × List CodeBlock)
  | [] => [(h, [b])]
  | (k, bs) :: rest =>
    if k = h then (k, bs ++ [b]) :: rest
    else (k, bs) :: add_to_bucket h b rest

/-- The `hash_groups` dict of `group_duplicates`, as an insertion-ordered
association list from content hash to the bucket of blocks with that hash. -/
def hash_groups (ch : String → String) (blocks : List CodeBlock) :
    List (String × List CodeBlock) :=
  blocks.foldl (fun acc b => add_to_bucket (content_hash_of ch b) b acc) []

/-- A duplicate group (`DuplicateGroup`), as constructed by
`group_duplicates`.  The field `impact_score` is modelled from the spec: it
is computed by the model class `lib/models/duplicate_group.py`, absent from
the sources; per the spec it is "a function of duplication volume", so the
group constructor below takes it via an abstract function of the group's
total lines and occurrence count. -/
structure DuplicateGroup where
  group_id : String
  pattern_id : String
  member_block_ids : List String
  similarity_score : Rat
  similarity_method : String
  category : String
  language : String
  occurrence_count : Nat
  total_lines : Int
  affected_files : List String
  affected_repositories : List String
  impact_score : Rat
deriving Repr, DecidableEq, Inhabited

/-- The `DuplicateGroup(...)` construction in `group_duplicates`, applied to
a bucket `(h, group_blocks)` with `group_blocks = b :: rest` so that
`group_blocks[0] = b`.  `impact_of` abstracts the model-computed
`impact_score` (see `DuplicateGroup`). -/
def make_group (impact_of : Int → Nat → Rat) (h : String) (b : CodeBlock)
    (rest : List CodeBlock) : DuplicateGroup :=
  let group_blocks := b :: rest
  { group_id := "dg_" ++ h.take 12
    pattern_id := b.pattern_id
    member_block_ids := group_blocks.map (fun x => x.block_id)
    similarity_score := 1
    similarity_method := "exact_match"
    category := b.category
    language := b.language
    occurrence_count := group_blocks.length
    total_lines := (group_blocks.map (fun x => x.line_count)).sum
    affected_files := (group_blocks.map (fun x => x.location.file_path)).dedup
    affected_repositories := [b.repository_path]
    impact_score :=
      impact_of ((group_blocks.map (fun x => x.line_count)).sum)
        group_blocks.length }

/-- The body of the second loop of `group_duplicates`: a bucket of size ≥ 2
yields a group, a smaller bucket yields nothing. -/
def group_of_bucket (impact_of : Int → Nat → Rat)
    (p : String × List CodeBlock) : Option DuplicateGroup :=
  match p with
  | (h, b :: rest) =>
    if 2 ≤ (b :: rest).length then some (make_group impact_of h b rest)
    else none
  | (_, []) => none

/-- `group_duplicates(blocks)`: partition by content hash, emit one group
per bucket of size ≥ 2. -/
def group_duplicates (ch : String → String) (impact_of : Int → Nat → Rat)
    (blocks : List CodeBlock) : List DuplicateGroup :=
  (hash_groups ch blocks).filterMap (group_of_bucket impact_of)

/-- A consolidation suggestion (`ConsolidationSuggestion`), as constructed
by `generate_suggestions`. -/
structure ConsolidationSuggestion where
  suggestion_id : String
  duplicate_group_id : String
  strategy : String
  strategy_rationale : String
  impact_score : Rat
  complexity : String
  migration_risk : String
  breaking_changes : Bool
  affected_files_count : Nat
  affected_repositories_count : Nat
  confidence : Rat
deriving Repr, DecidableEq, Inhabited

/-- The strategy selection of `generate_suggestions`: ordered thresholds on
`occurrence_count`. -/
def strategy_of (occurrence_count : Nat) : String :=
  if occurrence_count ≤ 3 then "local_util"
  else if occurrence_count ≤ 10 then "shared_package"
  else "mcp_server"

/-- The `ConsolidationSuggestion(...)` construction in
`generate_suggestions`, for one group. -/
def suggestion_of (group : DuplicateGroup) : ConsolidationSuggestion :=
  { suggestion_id := "cs_" ++ group.group_id
    duplicate_group_id := group.group_id
    strategy := strategy_of group.occurrence_count
    strategy_rationale :=
      "Found " ++ toString group.occurrence_count ++ " occurrences in " ++
        toString group.affected_files.length ++ " files"
    impact_score := min group.impact_score 100
    complexity := "simple"
    migration_risk := "low"
    breaking_changes := false
    affected_files_count := group.affected_files.length
    affected_repositories_count := group.affected_repositories.length
    confidence :=
      if (95 : Rat) / 100 ≤ group.similarity_score then (9 : Rat) / 10
      else (7 : Rat) / 10 }

/-- `generate_suggestions(groups)`: one suggestion per group, in order. -/
def generate_suggestions (groups : List DuplicateGroup) :
    List ConsolidationSuggestion :=
  groups.map suggestion_of

/-- The `metrics` dict computed in `main`. -/
structure ScanMetrics where
  total_code_blocks : Nat
  total_duplicate_groups : Nat
  exact_duplicates : Nat
  structural_duplicates : Nat
  semantic_duplicates : Nat
  total_duplicated_lines : Int
  potential_loc_reduction : Int
  duplication_percentage : Rat
  total_suggestions : Nat
  quick_wins : Nat
  high_priority_suggestions : Nat
deriving Repr, DecidableEq, Inhabited

/-- The per-group summand of `potential_loc_reduction`:
`g.total_lines - g.total_lines // g.occurrence_count` with Python floor
division. -/
def loc_reduction_of (g : DuplicateGroup) : Int :=
  g.total_lines - Int.fdiv g.total_lines (Int.ofNat g.occurrence_count)

/-- The metrics computation of `main` (stage 7). -/
def calc_metrics (blocks : List CodeBlock) (groups : List DuplicateGroup)
    (suggestions : List ConsolidationSuggestion) : ScanMetrics :=
  { total_code_blocks := blocks.length
    total_duplicate_groups := groups.length
    exact_duplicates :=
      (groups.filter (fun g => g.similarity_method == "exact")).length
    structural_duplicates := 0
    semantic_duplicates := 0
    total_duplicated_lines := (groups.map (fun g => g.total_lines)).sum
    potential_loc_reduction := (groups.map loc_reduction_of).sum
    duplication_percentage := 0
    total_suggestions := suggestions.length
    quick_wins :=
      (suggestions.filter (fun s => s.complexity == "trivial")).length
    high_priority_suggestions :=
      (suggestions.filter
        (fun s => decide ((75 : Rat) ≤ s.impact_score))).length }

/-- The decoded input document: `repository_info` and `pattern_matches`. -/
structure PipelineInput where
  repository_info : RepositoryInfo
  pattern_matches : List Match
deriving Repr, DecidableEq, Inhabited

/-- The output document assembled by `main`, together with the stderr
diagnostics of skipped records. -/
structure PipelineOutput where
  code_blocks : List CodeBlock
  duplicate_groups : List DuplicateGroup
  suggestions : List ConsolidationSuggestion
  metrics : ScanMetrics
  diagnostics : List (Nat × String)
deriving Repr, DecidableEq, Inhabited

/-- The pipeline of `main` after a well-formed input has been decoded:
extract, group, suggest, compute metrics. -/
def run_pipeline (sha256hex ch : String → String)
    (impact_of : Int → Nat → Rat) (input : PipelineInput) : PipelineOutput :=
  let er := extract_code_blocks sha256hex input.pattern_matches
    input.repository_info
  let groups := group_duplicates ch impact_of er.1
  let suggestions := generate_suggestions groups
  { code_blocks := er.1
    duplicate_groups := groups
    suggestions := suggestions
    metrics := calc_metrics er.1 groups suggestions
    diagnostics := er.2 }


/-! ### Concrete fixtures for witnesses and counterexamples -/

/-- A concrete stand-in for the abstract hash functions in closed
statements. -/
def idhash : String → String := fun s => s

/-- A concrete stand-in for the abstract model-computed impact score. -/
def impact0 : Int → Nat → Rat := fun _ _ => 0

/-- A second concrete impact function, used to show that identifiers do not
depend on it. -/
def impact1 : Int → Nat → Rat := fun _ _ => 1

/-- A concrete repository descriptor. -/
def repoW : RepositoryInfo := { path := "/repo" }

/-- A well-formed match: `a.js` line 10, text `"if (x) return null;"`. -/
def mDup1 : Match :=
  { rule_id := some "validation"
    file_path := some "a.js"
    line_start := some 10
    line_end := none
    matched_text := some "if (x) return null;" }

/-- A well-formed match with the same matched text in `b.js` line 22. -/
def mDup2 : Match :=
  { rule_id := some "validation"
    file_path := some "b.js"
    line_start := some 22
    line_end := none
    matched_text := some "if (x) return null;" }

/-- An input holding exactly one pair of exact duplicates. -/
def input_dup : PipelineInput :=
  { repository_info := repoW, pattern_matches := [mDup1, mDup2] }

/-! ### Shared helper lemmas -/

/-- Characterization of the extraction loop: the blocks are the valid
records in input order, and the diagnostics enumerate the skipped records
with their index and file path. -/
theorem extract_loop_eq (sha256hex : String → String)
    (repo : RepositoryInfo) (ms : List Match) : ∀ i : Nat,
    extract_loop sha256hex repo i ms =
      (ms.filterMap (extract_one sha256hex repo),
       (ms.enumFrom i).filterMap
         (fun p => if (extract_one sha256hex repo p.2).isSome then none
                   else some (p.1, p.2.file_path.getD "unknown"))) := by
  induction ms with
  | nil => intro i; simp [extract_loop]
  | cons m rest ih =>
    intro i
    simp only [extract_loop, ih (i + 1)]
    cases h : extract_one sha256hex repo m with
    | some b => simp [List.enumFrom, List.filterMap_cons, h]
    | none => simp [List.enumFrom, List.filterMap_cons, h]

/-- Looking up a key absent from an association list yields none. -/
theorem lookup_eq_none_of_not_mem {β : Type} (l : List (String × β))
    (k : String) (h : k ∉ l.map Prod.fst) : l.lookup k = none := by
  induction l with
  | nil => rfl
  | cons p rest ih =>
    simp only [List.map_cons, List.mem_cons] at h
    push_neg at h
    have hk : (k == p.1) = false := by
      simp [h.1]
    simp [List.lookup, hk, ih h.2]

/-- Every generated suggestion has complexity `"simple"`, so the filter for
`"trivial"` complexity is empty. -/
theorem no_trivial_suggestions (groups : List DuplicateGroup) :
    (generate_suggestions groups).filter
      (fun s => s.complexity == "trivial") = [] := by
  induction groups with
  | nil => rfl
  | cons g rest ih =>
    simp only [generate_suggestions, List.map_cons, List.filter_cons] at ih ⊢
    simp [suggestion_of, ih]

/-! ### C2: strategy thresholds -/

/-- C2: Strategy selection is a pure function of `occurrence_count` applied
as ordered thresholds: each suggestion's strategy is `strategy_of` of its
group's occurrence count; counts ≤ 3 yield the local-utility strategy, 4–10
the shared-package strategy, > 10 the centralized-service strategy; counts
3 and 4, and counts 10 and 11, map to different strategies. -/
theorem strategy_thresholds :
    (∀ g : DuplicateGroup,
      (suggestion_of g).strategy = strategy_of g.occurrence_count)
    ∧ (∀ n : Nat,
        (n ≤ 3 → strategy_of n = "local_util")
        ∧ (4 ≤ n → n ≤ 10 → strategy_of n = "shared_package")
        ∧ (10 < n → strategy_of n = "mcp_server"))
    ∧ strategy_of 3 ≠ strategy_of 4
    ∧ strategy_of 10 ≠ strategy_of 11 := by
  refine ⟨fun g => rfl, fun n => ⟨?_, ?_, ?_⟩, by decide, by decide⟩
  · intro h
    simp [strategy_of, h]
  · intro h4 h10
    have h3 : ¬ n ≤ 3 := by omega
    simp [strategy_of, h3, h10]
  · intro h
    have h3 : ¬ n ≤ 3 := by omega
    have h10 : ¬ n ≤ 10 := by omega
    simp [strategy_of, h3, h10]

/-- Witness for C2: the thresholds evaluated at counts 2, 7 and 11. -/
theorem strategy_thresholds_witness :
    strategy_of 2 = "local_util" ∧ strategy_of 7 = "shared_package"
    ∧ strategy_of 11 = "mcp_server" :=
  ⟨(strategy_thresholds.2.1 2).1 (by decide),
   (strategy_thresholds.2.1 7).2.1 (by decide) (by decide),
   (strategy_thresholds.2.1 11).2.2 (by decide)⟩

/-! ### C10: quick_wins is always zero -/

/-- C10: every generated suggestion has complexity `"simple"` while the
`quick_wins` metric counts suggestions with complexity `"trivial"`, so the
metric is 0 for every input. -/
theorem quick_wins_always_zero (sha256hex ch : String → String)
    (impact_of : Int → Nat → Rat) (input : PipelineInput) :
    (run_pipeline sha256hex ch impact_of input).metrics.quick_wins = 0 := by
  have h := no_trivial_suggestions
    (group_duplicates ch impact_of
      (extract_code_blocks sha256hex input.pattern_matches
        input.repository_info).1)
  simp [run_pipeline, calc_metrics, h]

/-! ### C1: the exact_duplicates metric filter mismatch -/

/-- C1 (code bug): on an input with one pair of exact duplicates, the
grouper emits one group tagged `"exact_match"`, yet the metrics filter
compares `similarity_method` against `"exact"`, so `exact_duplicates`
computes to 0 instead of the number of emitted groups. -/
theorem exact_duplicates_filter_mismatch :
    (run_pipeline idhash idhash impact0 input_dup).metrics.total_duplicate_groups = 1
    ∧ (run_pipeline idhash idhash impact0 input_dup).duplicate_groups.map
        (fun g => g.similarity_method) = ["exact_match"]
    ∧ (run_pipeline idhash idhash impact0 input_dup).metrics.exact_duplicates = 0 := by
  refine ⟨?_, ?_, ?_⟩ <;> rfl

/-! ### C8: unmapped rule ids default to the utility category -/

/-- C8: a `rule_id` absent from the fixed category table maps to the
default `"utility"` category, and extraction of a record carrying it (with
the required fields present) still succeeds, never raising. -/
theorem unmapped_rule_defaults_to_utility (rid : String)
    (h : rid ∉ category_map.map Prod.fst) :
    (category_map.lookup rid).getD "utility" = "utility"
    ∧ ∀ (sha256hex : String → String) (repo : RepositoryInfo)
        (fp : String) (ls : Int) (le mt : Option _),
        (extract_one sha256hex repo
          { rule_id := some rid, file_path := some fp, line_start := some ls,
            line_end := le, matched_text := mt }).map
            (fun b => b.category) = some "utility" := by
  have hl := lookup_eq_none_of_not_mem category_map rid h
  refine ⟨by simp [hl], ?_⟩
  intro sha256hex repo fp ls le mt
  simp [extract_one, hl]

/-- Witness for C8: the unmapped rule id `"no-such-rule"`. -/
theorem unmapped_rule_defaults_to_utility_witness :
    (category_map.lookup "no-such-rule").getD "utility" = "utility"
    ∧ (extract_one idhash repoW
        { rule_id := some "no-such-rule", file_path := some "a.js",
          line_start := some 10, line_end := none,
          matched_text := none }).map (fun b => b.category)
        = some "utility" :=
  ⟨(unmapped_rule_defaults_to_utility "no-such-rule" (by decide)).1,
   (unmapped_rule_defaults_to_utility "no-such-rule" (by decide)).2
     idhash repoW "a.js" 10 none none⟩

/-! ### C9: the confidence rule -/

/-- C9: a suggestion gets confidence 0.9 when its group has
`similarity_score ≥ 0.95` and 0.7 otherwise; since the grouper always sets
`similarity_score` to exactly 1, every suggestion generated from grouper
output has confidence 0.9. -/
theorem confidence_threshold :
    (∀ g : DuplicateGroup,
      ((95 : Rat) / 100 ≤ g.similarity_score →
        (suggestion_of g).confidence = (9 : Rat) / 10)
      ∧ (g.similarity_score < (95 : Rat) / 100 →
        (suggestion_of g).confidence = (7 : Rat) / 10))
    ∧ ∀ (ch : String → String) (impact_of : Int → Nat → Rat)
        (blocks : List CodeBlock) (s : ConsolidationSuggestion),
        s ∈ generate_suggestions (group_duplicates ch impact_of blocks) →
        s.confidence = (9 : Rat) / 10 := by
  constructor
  · intro g
    constructor
    · intro h
      simp [suggestion_of, h]
    · intro h
      simp [suggestion_of, not_le.mpr h]
  · intro ch impact_of blocks s hs
    rcases List.mem_map.mp hs with ⟨g, hg, rfl⟩
    rcases List.mem_filterMap.mp hg with ⟨p, _, hpg⟩
    rcases p with ⟨hsh, bs⟩
    cases bs with
    | nil => simp [group_of_bucket] at hpg
    | cons b rest =>
      simp only [group_of_bucket] at hpg
      split at hpg
      · injection hpg with hpg
        subst hpg
        have h1 : (95 : Rat) / 100 ≤ (make_group impact_of hsh b rest).similarity_score := by
          show (95 : Rat) / 100 ≤ 1
          norm_num
        simp [suggestion_of, h1]
      · exact absurd hpg (by simp)

/-- A group record with a similarity score below the 0.95 threshold, for
exercising the low-confidence branch of the rule. -/
def gLow : DuplicateGroup :=
  { group_id := "dg_x", pattern_id := "validation",
    member_block_ids := ["cb_1", "cb_2"], similarity_score := 1 / 2,
    similarity_method := "structural", category := "validator",
    language := "javascript", occurrence_count := 2, total_lines := 4,
    affected_files := ["a.js", "b.js"], affected_repositories := ["/repo"],
    impact_score := 0 }

/-- The first suggestion produced by the pipeline on the duplicate-pair
fixture. -/
def sW : ConsolidationSuggestion :=
  (generate_suggestions
    (group_duplicates idhash impact0
      (extract_code_blocks idhash input_dup.pattern_matches
        input_dup.repository_info).1)).headI

/-- Witness for C9: both branches of the threshold rule at concrete groups,
and the 0.9 confidence of a concretely generated suggestion. -/
theorem confidence_threshold_witness :
    (suggestion_of gLow).confidence = (7 : Rat) / 10
    ∧ sW.confidence = (9 : Rat) / 10 :=
  ⟨(confidence_threshold.1 gLow).2 (by norm_num [gLow]),
   confidence_threshold.2 idhash impact0
     (extract_code_blocks idhash input_dup.pattern_matches
       input_dup.repository_info).1 sW
     (by
       have h : generate_suggestions (group_duplicates idhash impact0
           (extract_code_blocks idhash input_dup.pattern_matches
             input_dup.repository_info).1) = [sW] := rfl
       rw [h]
       exact List.mem_singleton_self sW)⟩

/-! ### C3: groups always have at least two members -/

/-- C3: every emitted duplicate group has
`occurrence_count = |member_block_ids| ≥ 2`, and a content-hash bucket with
fewer than two blocks yields no group. -/
theorem group_occurrence_at_least_two (ch : String → String)
    (impact_of : Int → Nat → Rat) (blocks : List CodeBlock) :
    (∀ g ∈ group_duplicates ch impact_of blocks,
      g.occurrence_count = g.member_block_ids.length
      ∧ 2 ≤ g.occurrence_count)
    ∧ ∀ (hsh : String) (bs : List CodeBlock), bs.length < 2 →
        group_of_bucket impact_of (hsh, bs) = none := by
  constructor
  · intro g hg
    rcases List.mem_filterMap.mp hg with ⟨p, _, hpg⟩
    rcases p with ⟨hsh, bs⟩
    cases bs with
    | nil => simp [group_of_bucket] at hpg
    | cons b rest =>
      simp only [group_of_bucket] at hpg
      split at hpg
      · rename_i h2
        injection hpg with hpg
        subst hpg
        constructor
        · simp [make_group]
        · simpa [make_group] using h2
      · exact absurd hpg (by simp)
  · intro hsh bs hbs
    cases bs with
    | nil => rfl
    | cons b rest =>
      cases rest with
      | nil => rfl
      | cons c cs =>
        exfalso
        simp [List.length_cons] at hbs
        omega

/-- The single duplicate group produced by the pipeline on the
duplicate-pair fixture. -/
def gW : DuplicateGroup :=
  (group_duplicates idhash impact0
    (extract_code_blocks idhash input_dup.pattern_matches
      input_dup.repository_info).1).headI

/-- Witness for C3: the concrete group of the duplicate-pair fixture, and a
concrete singleton bucket producing no group. -/
theorem group_occurrence_at_least_two_witness :
    (gW.occurrence_count = gW.member_block_ids.length
      ∧ 2 ≤ gW.occurrence_count)
    ∧ group_of_bucket impact0 ("h0", []) = none :=
  ⟨(group_occurrence_at_least_two idhash impact0
      (extract_code_blocks idhash input_dup.pattern_matches
        input_dup.repository_info).1).1 gW
      (by
        have h : group_duplicates idhash impact0
            (extract_code_blocks idhash input_dup.pattern_matches
              input_dup.repository_info).1 = [gW] := rfl
        rw [h]
        exact List.mem_singleton_self gW),
   (group_occurrence_at_least_two idhash impact0 []).2 "h0" [] (by decide)⟩

/-! ### C5: per-record extraction with skip-on-error -/

/-- C5: the Extractor emits exactly one block per match having `rule_id`,
`file_path` and `line_start` present, in input order, and never fails the
batch; every other record is individually skipped with a diagnostic carrying
its index and file path. -/
theorem extractor_one_block_per_valid_match (sha256hex : String → String)
    (pattern_matches : List Match) (repository_info : RepositoryInfo) :
    (extract_code_blocks sha256hex pattern_matches repository_info).1
      = pattern_matches.filterMap (extract_one sha256hex repository_info)
    ∧ (extract_code_blocks sha256hex pattern_matches repository_info).2
      = pattern_matches.enum.filterMap
          (fun p =>
            if (extract_one sha256hex repository_info p.2).isSome then none
            else some (p.1, p.2.file_path.getD "unknown"))
    ∧ ∀ m : Match,
        (extract_one sha256hex repository_info m).isSome
          ↔ m.rule_id.isSome ∧ m.file_path.isSome ∧ m.line_start.isSome := by
  refine ⟨?_, ?_, ?_⟩
  · rw [extract_code_blocks, extract_loop_eq]
  · rw [extract_code_blocks, extract_loop_eq]
    rfl
  · intro m
    rcases m with ⟨rid, fp, ls, le, mt⟩
    cases rid <;> cases fp <;> cases ls <;> simp [extract_one]

/-! ### C6: line_count of emitted blocks -/

/-- A match whose `line_end` precedes its `line_start`. -/
def m_neg : Match :=
  { rule_id := some "validation"
    file_path := some "a.js"
    line_start := some 5
    line_end := some 3
    matched_text := none }

/-- C6 counterexample: a match with `line_end < line_start` is extracted
into a block whose `line_count` is -1, violating `line_count ≥ 1`. -/
theorem line_count_can_be_nonpositive :
    ((extract_code_blocks idhash [m_neg] repoW).1.map
      (fun b => b.line_count)) = [-1]
    ∧ ¬ (1 : Int) ≤ -1 :=
  ⟨rfl, by decide⟩

/-- C6 amended: every emitted block satisfies
`line_count = line_end - line_start + 1`, which is ≥ 1 whenever
`line_start ≤ line_end`; when the record omits `line_end` it defaults to
`line_start` and `line_count = 1`. -/
theorem line_count_formula (sha256hex : String → String)
    (repository_info : RepositoryInfo) :
    (∀ (pattern_matches : List Match) (b : CodeBlock),
      b ∈ (extract_code_blocks sha256hex pattern_matches
        repository_info).1 →
      b.line_count = b.location.line_end - b.location.line_start + 1
      ∧ (b.location.line_start ≤ b.location.line_end → 1 ≤ b.line_count))
    ∧ ∀ (m : Match) (b : CodeBlock),
        extract_one sha256hex repository_info m = some b →
        m.line_end = none →
        b.location.line_end = b.location.line_start ∧ b.line_count = 1 := by
  constructor
  · intro pattern_matches b hb
    have hb2 : b ∈ pattern_matches.filterMap
        (extract_one sha256hex repository_info) := by
      rw [extract_code_blocks, extract_loop_eq] at hb
      exact hb
    rcases List.mem_filterMap.mp hb2 with ⟨m, _, hmb⟩
    rcases m with ⟨rid, fp, ls, le, mt⟩
    cases rid <;> cases fp <;> cases ls <;> simp [extract_one] at hmb
    subst hmb
    constructor
    · rfl
    · intro h
      simp at h ⊢
      omega
  · intro m b hmb hle
    rcases m with ⟨rid, fp, ls, le, mt⟩
    cases rid <;> cases fp <;> cases ls <;> simp [extract_one] at hmb
    simp at hle
    subst hle
    subst hmb
    constructor
    · rfl
    · simp

/-- The block extracted from the first fixture match. -/
def bW1 : CodeBlock := (extract_one idhash repoW mDup1).getD default

/-- Witness for C6: a block from a record omitting `line_end`, with
`line_count = 1` and the default `line_end = line_start`. -/
theorem line_count_formula_witness :
    (bW1.line_count = bW1.location.line_end - bW1.location.line_start + 1
      ∧ 1 ≤ bW1.line_count)
    ∧ (bW1.location.line_end = bW1.location.line_start
      ∧ bW1.line_count = 1) :=
  ⟨⟨((line_count_formula idhash repoW).1 [mDup1] bW1
      (by
        have h : (extract_code_blocks idhash [mDup1] repoW).1 = [bW1] := rfl
        rw [h]
        exact List.mem_singleton_self bW1)).1,
    ((line_count_formula idhash repoW).1 [mDup1] bW1
      (by
        have h : (extract_code_blocks idhash [mDup1] repoW).1 = [bW1] := rfl
        rw [h]
        exact List.mem_singleton_self bW1)).2 (by decide)⟩,
   (line_count_formula idhash repoW).2 mDup1 bW1 rfl rfl⟩

/-! ### C4: potential_loc_reduction -/

/-- A match with a degenerate line range whose text duplicates
`m_negdup2`. -/
def m_negdup1 : Match :=
  { rule_id := some "validation"
    file_path := some "a.js"
    line_start := some 10
    line_end := some 3
    matched_text := some "same" }

/-- A second match with a degenerate line range and the same text as
`m_negdup1`. -/
def m_negdup2 : Match :=
  { rule_id := some "validation"
    file_path := some "b.js"
    line_start := some 20
    line_end := some 13
    matched_text := some "same" }

/-- An input whose single duplicate group has negative `total_lines`. -/
def input_negdup : PipelineInput :=
  { repository_info := repoW, pattern_matches := [m_negdup1, m_negdup2] }

/-- C4 counterexample: with degenerate line ranges the single emitted group
has `total_lines = -12` and per-group summand -6, which is negative and
exceeds `total_lines`; so the claimed bounds fail as stated. -/
theorem loc_reduction_summand_negative_example :
    ((run_pipeline idhash idhash impact0 input_negdup).duplicate_groups.map
      loc_reduction_of) = [-6]
    ∧ ((run_pipeline idhash idhash impact0 input_negdup).duplicate_groups.map
      (fun g => g.total_lines)) = [-12]
    ∧ ¬ (0 : Int) ≤ -6 ∧ ¬ (-6 : Int) ≤ -12 :=
  ⟨rfl, rfl, by decide, by decide⟩

/-- C4 amended: `potential_loc_reduction` is the sum over groups of
`total_lines - total_lines // occurrence_count` with floor division, and for
every group with nonnegative `total_lines` the per-group summand is
nonnegative and at most `total_lines`. -/
theorem potential_loc_reduction_bounds :
    (∀ (sha256hex ch : String → String) (impact_of : Int → Nat → Rat)
        (input : PipelineInput),
        (run_pipeline sha256hex ch impact_of input).metrics.potential_loc_reduction
          = (((run_pipeline sha256hex ch impact_of input).duplicate_groups).map
              loc_reduction_of).sum)
    ∧ ∀ g : DuplicateGroup, 0 ≤ g.total_lines →
        0 ≤ loc_reduction_of g ∧ loc_reduction_of g ≤ g.total_lines := by
  constructor
  · intro sha256hex ch impact_of input
    rfl
  · intro g hg
    unfold loc_reduction_of
    have hc : (0 : Int) ≤ Int.ofNat g.occurrence_count := Int.ofNat_nonneg _
    have h1 : 0 ≤ Int.fdiv g.total_lines (Int.ofNat g.occurrence_count) :=
      Int.fdiv_nonneg hg hc
    have h2 : Int.fdiv g.total_lines (Int.ofNat g.occurrence_count)
        ≤ g.total_lines := by
      rw [Int.fdiv_eq_ediv _ hc]
      exact Int.ediv_le_self _ hg
    omega

/-- Witness for C4: the bounds at the concrete group of the duplicate-pair
fixture, whose `total_lines` is nonnegative. -/
theorem potential_loc_reduction_bounds_witness :
    0 ≤ loc_reduction_of gW ∧ loc_reduction_of gW ≤ gW.total_lines :=
  potential_loc_reduction_bounds.2 gW (by decide)

/-! ### C7: stable identifier derivation -/

/-- The block id of an extracted block is `block_id_of` applied to the
record's file path and line start. -/
theorem extract_one_block_id (sha256hex : String → String)
    (repo : RepositoryInfo) (m : Match) (b : CodeBlock)
    (h : extract_one sha256hex repo m = some b) :
    ∃ fp ls, m.file_path = some fp ∧ m.line_start = some ls
      ∧ b.block_id = block_id_of sha256hex fp ls := by
  rcases m with ⟨rid, fp, ls, le, mt⟩
  cases rid <;> cases fp <;> cases ls <;> simp [extract_one] at h
  subst h
  exact ⟨_, _, rfl, rfl, rfl⟩

/-- The group id of a group emitted from a bucket is derived from the
bucket's content hash alone. -/
theorem group_of_bucket_group_id (impact_of : Int → Nat → Rat)
    (hsh : String) (bs : List CodeBlock) (g : DuplicateGroup)
    (h : group_of_bucket impact_of (hsh, bs) = some g) :
    g.group_id = "dg_" ++ hsh.take 12 := by
  cases bs with
  | nil => simp [group_of_bucket] at h
  | cons b rest =>
    simp only [group_of_bucket] at h
    split at h
    · injection h with h
      subst h
      rfl
    · exact absurd h (by simp)

/-- C7: identifiers are stable derivations — `block_id` is a function of
`(file_path, line_start)` only, `group_id` of the shared content hash only,
and `suggestion_id` of the `group_id` only; hence re-running the (pure)
pipeline on identical input reproduces identical ids. -/
theorem stable_id_derivation :
    (∀ (sha256hex : String → String) (r1 r2 : RepositoryInfo)
        (m1 m2 : Match) (b1 b2 : CodeBlock),
        extract_one sha256hex r1 m1 = some b1 →
        extract_one sha256hex r2 m2 = some b2 →
        m1.file_path = m2.file_path → m1.line_start = m2.line_start →
        b1.block_id = b2.block_id)
    ∧ (∀ (i1 i2 : Int → Nat → Rat) (hsh : String)
        (bs1 bs2 : List CodeBlock) (g1 g2 : DuplicateGroup),
        group_of_bucket i1 (hsh, bs1) = some g1 →
        group_of_bucket i2 (hsh, bs2) = some g2 →
        g1.group_id = g2.group_id)
    ∧ ∀ g1 g2 : DuplicateGroup, g1.group_id = g2.group_id →
        (suggestion_of g1).suggestion_id = (suggestion_of g2).suggestion_id := by
  refine ⟨?_, ?_, ?_⟩
  · intro sha256hex r1 r2 m1 m2 b1 b2 h1 h2 hfp hls
    obtain ⟨fp1, ls1, hf1, hl1, hb1⟩ := extract_one_block_id _ _ _ _ h1
    obtain ⟨fp2, ls2, hf2, hl2, hb2⟩ := extract_one_block_id _ _ _ _ h2
    rw [hf1, hf2, Option.some_inj] at hfp
    rw [hl1, hl2, Option.some_inj] at hls
    rw [hb1, hb2, hfp, hls]
  · intro i1 i2 hsh bs1 bs2 g1 g2 h1 h2
    rw [group_of_bucket_group_id _ _ _ _ h1,
      group_of_bucket_group_id _ _ _ _ h2]
  · intro g1 g2 h
    show "cs_" ++ g1.group_id = "cs_" ++ g2.group_id
    rw [h]

/-- A match sharing file path and line start with `mDup1` but differing in
every other field. -/
def mB : Match :=
  { rule_id := some "other-rule"
    file_path := some "a.js"
    line_start := some 10
    line_end := some 12
    matched_text := some "zzz" }

/-- Block extracted from `mDup1` against one repository. -/
def bA : CodeBlock := (extract_one idhash { path := "/r1" } mDup1).getD default

/-- Block extracted from `mB` against a different repository. -/
def bB : CodeBlock := (extract_one idhash { path := "/r2" } mB).getD default

/-- Group built from the bucket `[bA, bB]` under one impact function. -/
def gA : DuplicateGroup :=
  (group_of_bucket impact0 ("h1", [bA, bB])).getD default

/-- Group built from the reordered bucket under another impact function. -/
def gB : DuplicateGroup :=
  (group_of_bucket impact1 ("h1", [bB, bA])).getD default

/-- Witness for C7: concrete records agreeing only on the derivation inputs
still receive identical ids. -/
theorem stable_id_derivation_witness :
    bA.block_id = bB.block_id ∧ gA.group_id = gB.group_id
    ∧ (suggestion_of gA).suggestion_id = (suggestion_of gB).suggestion_id :=
  ⟨stable_id_derivation.1 idhash { path := "/r1" } { path := "/r2" }
      mDup1 mB bA bB rfl rfl rfl rfl,
   stable_id_derivation.2.1 impact0 impact1 "h1" [bA, bB] [bB, bA]
      gA gB rfl rfl,
   stable_id_derivation.2.2 gA gB
     (stable_id_derivation.2.1 impact0 impact1 "h1" [bA, bB] [bB, bA]
        gA gB rfl rfl)⟩

end ExtractBlocks
